import Mathlib

/-!
Verification development for the mtms-console reactive core.

This file shallowly embeds the core of the repository:
  * `src/variable/variable.py`                (class `Variable`)
  * `src/variable/state_variable.py`          (class `StateVariable`, enum `State`)
  * `src/variable/automatic_state_variable.py`(class `AutomaticStateVariable`)
  * `src/model/connection/server_connection.py` (class `ServerConnection`)
  * `src/model/connection/helpers.py`         (`validate_url`, no default scheme)
  * `src/model/helpers.py`                    (`validate_url`, with default scheme)
and proves properties of the embedded operations.

Modelling conventions:
  * Python runtime values stored in a `Variable` are modelled by `PyVal`;
    Python `None` is `PyVal.none`, and `type(v)` is `typeOf v : PyType`.
  * Python exceptions are modelled by the enumeration `PyErr`.  A mutating
    method returns `(newObject, events, Option PyErr)`: the object reflects
    exactly the field assignments executed before the raise (in the source
    every raise happens before any field assignment of the same call).
  * Callbacks are opaque: an observer is identified by a `Nat` tag and the
    embedding records, as events, each invocation together with its
    `(new, old)` arguments (the `self` argument of the Python callback is
    the object itself and is not repeated in the event).  A validator is a
    pure predicate on the candidate value (per the spec it may not mutate
    or depend on mutable parts of `self`), and a formatter is a function
    from the stored value to `Except PyErr String`.
  * `asyncio` suspension is compressed: coroutines that only sleep are
    modelled by their synchronous effects; task handles are booleans
    (in flight or not) and timer handles carry their cancelled flag.
-/

namespace Mtms

/-- Python exception kinds raised by the embedded code. -/
inductive PyErr where
  | validationError
  | assertionError
  | runtimeWarning
  | typeError
  | connectionError
  | otherError
  deriving DecidableEq, Repr

/-- Python runtime types of the values the embedded code stores. -/
inductive PyType where
  | noneType
  | intType
  | strType
  | boolType
  deriving DecidableEq, Repr

/-- Python runtime values stored in a `Variable`; `PyVal.none` is Python `None`. -/
inductive PyVal where
  | none
  | int (n : Int)
  | str (s : String)
  | bool (b : Bool)
  deriving DecidableEq, Repr

/-- Python `type(v)`. -/
def typeOf : PyVal → PyType
  | .none => .noneType
  | .int _ => .intType
  | .str _ => .strType
  | .bool _ => .boolType

/-- Python `str(v)` for the embedded values (`str(None) = "None"`). -/
def pyStr : PyVal → String
  | .none => "None"
  | .int n => toString n
  | .str s => s
  | .bool b => if b then "True" else "False"

/-- Embedding of class `Variable` (`src/variable/variable.py`).

`observers` is `self._on_value_changed` (a set of callbacks, modelled as a
list of opaque tags); `ty` is `self._type`, with `Option.none` standing for
the Python object `None` (which the constructor in fact never stores:
`type(value)` is a type object, `NoneType` when `value is None`). -/
structure Variable where
  observers : List Nat
  formatter : Option (PyVal → Except PyErr String)
  validator : Option (PyVal → Bool)
  value : PyVal
  ty : Option PyType

/-- A recorded invocation of a value-change observer: `(tag, newValue, oldValue)`. -/
def ValNotif : Type := Nat × PyVal × PyVal

/-- `Variable.__init__(value, on_value_changed, formatter, validator)`:
raises `ValidationError` when the validator rejects `value`; otherwise
stores the value and fixes `self._type = type(value)`. -/
def mkVariable (value : PyVal) (onValueChanged : Option Nat)
    (formatter : Option (PyVal → Except PyErr String))
    (validator : Option (PyVal → Bool)) : Except PyErr Variable :=
  if (match validator with | some f => !(f value) | Option.none => false) then
    .error .validationError
  else
    .ok { observers := match onValueChanged with | some cb => [cb] | Option.none => []
          formatter := formatter
          validator := validator
          value := value
          ty := some (typeOf value) }

/-- `Variable._set_value(new_value)` (the `value` property setter):
  1. `if self._type is None: raise RuntimeWarning(...)` — the line
     `self._type = type(new_value)` after it is unreachable;
  2. `if new_value is not None: assert type(new_value) == self._type`;
  3. `if self.validator and not self.validator(self, new_value): raise
     ValidationError`;
  4. store the value and call every observer with `(self, new, old)`. -/
def varSetValue (var : Variable) (newValue : PyVal) :
    Variable × List ValNotif × Option PyErr :=
  match var.ty with
  | Option.none => (var, [], some .runtimeWarning)
  | some t =>
    if newValue ≠ PyVal.none ∧ typeOf newValue ≠ t then
      (var, [], some .assertionError)
    else if (match var.validator with | some f => !(f newValue) | Option.none => false) then
      (var, [], some .validationError)
    else
      let old := var.value
      ({ var with value := newValue },
       var.observers.map (fun cb => (cb, newValue, old)),
       Option.none)

/-- `Variable.__repr__`: use the formatter when present; catch only
`TypeError`, return the string `"None"` when the stored value is `None`,
re-raise otherwise; without a formatter return `str(self._value)`. -/
def varRepr (var : Variable) : Except PyErr String :=
  match var.formatter with
  | some f =>
    match f var.value with
    | .ok s => .ok s
    | .error .typeError =>
      if var.value = PyVal.none then .ok "None" else .error .typeError
    | .error e => .error e
  | Option.none => .ok (pyStr var.value)

/-- Enum `State` (`src/variable/state_variable.py`). -/
inductive State where
  | UNINITIALIZED
  | RED
  | YELLOW
  | GREEN
  | BLUE
  deriving DecidableEq, Repr

/-- Embedding of class `StateVariable` (`src/variable/state_variable.py`):
a `Variable` with a `State` and a single optional `on_state_change`
callback (opaque tag). -/
structure StateVariable extends Variable where
  state : State
  onStateChange : Option Nat

/-- `StateVariable.__init__(value, state, on_state_change, **kwargs)`:
`self._state = state or State.UNINITIALIZED` (enum members are truthy,
so only a missing `state` argument falls back to `UNINITIALIZED`). -/
def mkStateVariable (value : PyVal) (state : Option State) (onStateChange : Option Nat)
    (onValueChanged : Option Nat)
    (formatter : Option (PyVal → Except PyErr String))
    (validator : Option (PyVal → Bool)) : Except PyErr StateVariable :=
  match mkVariable value onValueChanged formatter validator with
  | .error e => .error e
  | .ok v =>
    .ok { toVariable := v
          state := match state with | some s => s | Option.none => .UNINITIALIZED
          onStateChange := onStateChange }

/-- A recorded invocation of `on_state_change`: `(tag, newState, oldState)`. -/
def StateNotif : Type := Nat × State × State

/-- `StateVariable._set_state(new_state)`: store the new state, then call
`on_state_change` (if set) with `(self, new, old)`.  The Python
`assert type(new_state) == State` cannot fail in the embedding because the
argument is typed `State`. -/
def svSetState (sv : StateVariable) (newState : State) :
    StateVariable × List StateNotif :=
  let old := sv.state
  ({ sv with state := newState },
   match sv.onStateChange with
   | some cb => [(cb, newState, old)]
   | Option.none => [])

/-- An `asyncio` timer handle (`loop.call_later` result): only its
cancelled flag is observable by the code. -/
structure TimerHandle where
  cancelled : Bool
  deriving DecidableEq, Repr

/-- Embedding of class `AutomaticStateVariable`
(`src/variable/automatic_state_variable.py`): a `StateVariable` with the
two decay durations (floats in the source, modelled as rationals — no
claim depends on float rounding) and the two timer handles. -/
structure AutomaticStateVariable extends StateVariable where
  greenToYellow : Option ℚ
  yellowToRed : Option ℚ
  greenToYellowHandle : Option TimerHandle
  yellowToRedHandle : Option TimerHandle

/-- Events recorded by `AutomaticStateVariable` operations, in execution
order: value-observer calls, `on_state_change` calls, `handle.cancel()`
calls, and `loop.call_later` timer arming. -/
inductive AsvEvent where
  | valueNotify (cb : Nat) (newValue oldValue : PyVal)
  | stateNotify (cb : Nat) (newState oldState : State)
  | cancelGreenToYellow
  | cancelYellowToRed
  | armGreenToYellow (seconds : ℚ)
  | armYellowToRed (seconds : ℚ)
  deriving DecidableEq, Repr

/-- Python truthiness of `self.green_to_yellow` / `self.yellow_to_red`:
`None` and `0.0` are falsy. -/
def truthyDuration : Option ℚ → Bool
  | Option.none => false
  | some q => q ≠ 0

/-- Whether `handle and not handle.cancelled()` holds for a stored handle. -/
def handleActive : Option TimerHandle → Bool
  | Option.none => false
  | some h => !h.cancelled

/-- `handle.cancel()` applied to a stored handle. -/
def cancelHandle : Option TimerHandle → Option TimerHandle
  | Option.none => Option.none
  | some _ => some { cancelled := true }

/-- `AutomaticStateVariable._set_state(new_state)` (the overriding `state`
property setter), in source order:
  1. `super()._set_state(new_state)` — base transition and notification;
  2. cancel the green-to-yellow handle if present and not cancelled;
  3. cancel the yellow-to-red handle likewise;
  4. `if new_state == GREEN and self.green_to_yellow:` arm the
     green-to-yellow timer;
  5. `if new_state == YELLOW and self.yellow_to_red:` arm the
     yellow-to-red timer. -/
def asvSetState (a : AutomaticStateVariable) (newState : State) :
    AutomaticStateVariable × List AsvEvent :=
  let base := svSetState a.toStateVariable newState
  let a1 : AutomaticStateVariable := { a with toStateVariable := base.1 }
  let baseEvents := base.2.map (fun n => AsvEvent.stateNotify n.1 n.2.1 n.2.2)
  let cancelGreenEvents :=
    if handleActive a1.greenToYellowHandle then [AsvEvent.cancelGreenToYellow] else []
  let a2 := { a1 with greenToYellowHandle := cancelHandle a1.greenToYellowHandle }
  let cancelYellowEvents :=
    if handleActive a2.yellowToRedHandle then [AsvEvent.cancelYellowToRed] else []
  let a3 := { a2 with yellowToRedHandle := cancelHandle a2.yellowToRedHandle }
  let armGreen :=
    if newState = State.GREEN ∧ truthyDuration a3.greenToYellow then
      match a3.greenToYellow with
      | some g => ([AsvEvent.armGreenToYellow g], some (TimerHandle.mk false))
      | Option.none => ([], a3.greenToYellowHandle)
    else ([], a3.greenToYellowHandle)
  let a4 := { a3 with greenToYellowHandle := armGreen.2 }
  let armYellow :=
    if newState = State.YELLOW ∧ truthyDuration a4.yellowToRed then
      match a4.yellowToRed with
      | some y => ([AsvEvent.armYellowToRed y], some (TimerHandle.mk false))
      | Option.none => ([], a4.yellowToRedHandle)
    else ([], a4.yellowToRedHandle)
  let a5 := { a4 with yellowToRedHandle := armYellow.2 }
  (a5, baseEvents ++ cancelGreenEvents ++ cancelYellowEvents ++ armGreen.1 ++ armYellow.1)

/- Note on step 2/3 of `asvSetState`: in the source the cancelled handle
object stays stored (only its `cancelled()` flag flips); `cancelHandle`
mirrors that. -/

/-- `AutomaticStateVariable._set_value(new_value)` (the overriding `value`
property setter): `super()._set_value(new_value)` — which raises before any
mutation when the type check or validation fails — then
`self.state = State.GREEN` through the overriding state setter. -/
def asvSetValue (a : AutomaticStateVariable) (newValue : PyVal) :
    AutomaticStateVariable × List AsvEvent × Option PyErr :=
  let base := varSetValue a.toVariable newValue
  let a1 : AutomaticStateVariable :=
    { a with toStateVariable := { a.toStateVariable with toVariable := base.1 } }
  let valueEvents := base.2.1.map (fun n => AsvEvent.valueNotify n.1 n.2.1 n.2.2)
  match base.2.2 with
  | some e => (a1, valueEvents, some e)
  | Option.none =>
    let stepped := asvSetState a1 State.GREEN
    (stepped.1, valueEvents ++ stepped.2, Option.none)

/-- Split a character list at the first occurrence of `sep` (Python
`s.split(sep, 1)` when `sep` occurs); `none` when `sep` is absent. -/
def splitFirst (sep : Char) : List Char → Option (List Char × List Char)
  | [] => Option.none
  | c :: cs =>
    if c = sep then some ([], cs)
    else match splitFirst sep cs with
      | some p => some (c :: p.1, p.2)
      | Option.none => Option.none

/-- Whether `pat` occurs as a contiguous sublist of `l` (Python `pat in l`). -/
def containsSub (pat : List Char) : List Char → Bool
  | [] => pat.isPrefixOf []
  | c :: cs => pat.isPrefixOf (c :: cs) || containsSub pat cs

/-- The characters CPython's `urlsplit` allows in a scheme
(`scheme_chars`): ASCII letters, digits, `+`, `-`, `.`. -/
def schemeChar (c : Char) : Bool :=
  c.isAlpha || c.isDigit || c = '+' || c = '-' || c = '.'

/-- Result of CPython's `urlsplit`/`urlparse` restricted to the components
the repository reads (`scheme`, `netloc`, `path`; `query` and `fragment`
are computed because parsing strips them from the path). -/
structure UrlParts where
  scheme : List Char
  netloc : List Char
  path : List Char
  query : List Char
  fragment : List Char
  deriving DecidableEq, Repr

/-- Embedding of CPython's `urllib.parse.urlsplit` on the inputs the
repository feeds it (no surrounding whitespace, no `[`/`]` brackets — the
IPv6 `ValueError` branch and the `_checknetloc` NFKC check are vacuous on
such inputs and are omitted):
  1. a scheme is split off at the first `:` when the part before it is
     non-empty, starts with a letter and consists of scheme characters,
     and is lowercased;
  2. when the remainder starts with `//`, the netloc extends to the first
     `/`, `?` or `#`;
  3. the fragment is split off at the first `#`, then the query at the
     first `?`. -/
def urlsplit (url : List Char) : UrlParts :=
  let schemeSplit :=
    match splitFirst ':' url with
    | some p =>
      if (!p.1.isEmpty && p.1.all schemeChar &&
          (match p.1 with
            | c :: _ => c.isAlpha
            | [] => false)) = true then
        (p.1.map Char.toLower, p.2)
      else ([], url)
    | Option.none => ([], url)
  let netlocSplit :=
    match schemeSplit.2 with
    | '/' :: '/' :: rest =>
      ((rest.takeWhile (fun c => ¬(c = '/' ∨ c = '?' ∨ c = '#'))),
       (rest.dropWhile (fun c => ¬(c = '/' ∨ c = '?' ∨ c = '#'))))
    | other => ([], other)
  let fragmentSplit :=
    match splitFirst '#' netlocSplit.2 with
    | some p => p
    | Option.none => (netlocSplit.2, [])
  let querySplit :=
    match splitFirst '?' fragmentSplit.1 with
    | some p => p
    | Option.none => (fragmentSplit.1, [])
  { scheme := schemeSplit.1
    netloc := netlocSplit.1
    path := querySplit.1
    query := querySplit.2
    fragment := fragmentSplit.2 }

/-- CPython's `_splitparams(url)`, reached only when `;` occurs in the
path: the params are split off at the first `;` at or after the last `/`
(or the first `;` overall when there is no `/`). -/
def splitparams (path : List Char) : List Char × List Char :=
  if containsSub ['/'] path then
    match splitFirst '/' path.reverse with
    | some p =>
      -- `path = beforeLast ++ '/' :: afterLast` with no `/` in `afterLast`
      let afterLast := p.1.reverse
      let beforeLast := p.2.reverse
      match splitFirst ';' afterLast with
      | some q => (beforeLast ++ '/' :: q.1, q.2)
      | Option.none => (path, [])
    | Option.none => (path, [])
  else
    match splitFirst ';' path with
    | some q => (q.1, q.2)
    | Option.none => (path, [])

/-- CPython's `urlparse`: `urlsplit`, then params split off the path when
the path contains `;`. -/
def urlparse (url : List Char) : UrlParts :=
  let parts := urlsplit url
  if containsSub [';'] parts.path then
    { parts with path := (splitparams parts.path).1 }
  else parts

/-- `f"{scheme}://{netloc}{path}"`. -/
def canonicalUrl (parts : UrlParts) : String :=
  String.mk (parts.scheme ++ (':' :: '/' :: '/' :: []) ++ parts.netloc ++ parts.path)

/-- `validate_url` of `src/model/connection/helpers.py` (the variant the
`ServerConnection` imports): no default scheme; returns `None` for
non-string input and for inputs whose parse lacks a netloc or a scheme,
the canonical `scheme://netloc/path` string otherwise.  Never raises. -/
def validateUrlConn (url : Option String) : Option String :=
  match url with
  | Option.none => Option.none
  | some u =>
    let parts := urlparse u.data
    if parts.netloc = [] ∨ parts.scheme = [] then Option.none
    else some (canonicalUrl parts)

/-- `validate_url` of `src/model/helpers.py`: prepends
`default_scheme + "://"` when the input lacks a `"://"` separator, raises
`ValidationError` when the parse lacks a netloc or a scheme, returns the
canonical string otherwise (and `None` for non-string input). -/
def validateUrlModel (defaultScheme : String) (url : Option String) :
    Except PyErr (Option String) :=
  match url with
  | Option.none => .ok Option.none
  | some u =>
    let raw :=
      if containsSub (':' :: '/' :: '/' :: []) u.data then u.data
      else defaultScheme.data ++ (':' :: '/' :: '/' :: []) ++ u.data
    let parts := urlparse raw
    if parts.netloc = [] ∨ parts.scheme = [] then .error .validationError
    else .ok (some (canonicalUrl parts))

/-- Enum `ConnectionStatus`
(`src/model/connection/server_connection.py`). -/
inductive ConnectionStatus where
  | UNDEFINED
  | DISCONNECTED
  | CONNECTED
  | DISCONNECTING
  | CONNECTING
  | CANCELLING
  deriving DecidableEq, Repr

/-- Embedding of class `ServerConnection`
(`src/model/connection/server_connection.py`).  `statusObservers` is
`self._on_connection_status_changed` (a set of callbacks, as opaque tags);
the two task fields model `self._connect_task` / `self._disconnect_task`
being `None` (`false`) or a live task handle (`true`). -/
structure ServerConnection where
  url : Option String
  statusObservers : List Nat
  connectionStatus : ConnectionStatus
  connectTask : Bool
  disconnectTask : Bool

/-- Events recorded by `ServerConnection` operations, in execution order:
each assignment to the `connection_status` property, each status-observer
call it dispatches, and each `task.cancel()` call. -/
inductive ConnEvent where
  | statusSet (newStatus oldStatus : ConnectionStatus)
  | statusNotify (cb : Nat) (newStatus oldStatus : ConnectionStatus)
  | cancelConnectTask
  | cancelDisconnectTask
  deriving DecidableEq, Repr

/-- `ServerConnection.__init__(url, on_connection_status_changed)`:
`self._url = validate_url(url)` with the connection-layer `validate_url`,
status `DISCONNECTED`, no tasks. -/
def mkServerConnection (url : Option String) (onStatusChanged : Option Nat) :
    ServerConnection :=
  { url := validateUrlConn url
    statusObservers := match onStatusChanged with | some cb => [cb] | Option.none => []
    connectionStatus := .DISCONNECTED
    connectTask := false
    disconnectTask := false }

/-- The `connection_status` property setter: store the new status, then
call every registered observer with `(self, new, old)` — there is no
comparison of `new` with `old`. -/
def setConnectionStatus (s : ServerConnection) (v : ConnectionStatus) :
    ServerConnection × List ConnEvent :=
  let old := s.connectionStatus
  ({ s with connectionStatus := v },
   ConnEvent.statusSet v old ::
     s.statusObservers.map (fun cb => ConnEvent.statusNotify cb v old))

/-- The `url` property setter: `self._url = validate_url(value)` with the
connection-layer `validate_url`; no status change, no exception. -/
def setUrl (s : ServerConnection) (value : Option String) : ServerConnection :=
  { s with url := validateUrlConn value }

/-- The `connected` property:
`connection_status in (CONNECTED, DISCONNECTING)`. -/
def connected (s : ServerConnection) : Bool :=
  s.connectionStatus = ConnectionStatus.CONNECTED ∨
    s.connectionStatus = ConnectionStatus.DISCONNECTING

/-- `ServerConnection.connect()` with the `await` of the simulated
handshake compressed to its normal completion (the bogus coroutine sleeps
and returns `True`; a cancellation arriving during the sleep is a
concurrent interleaving outside this synchronous model).  Source order:
  1. `self.connection_status = CONNECTING`;
  2. raise `ConnectionError` (after reverting to `DISCONNECTED`) when the
     url is `None`;
  3. raise `ConnectionError` (status left at `CONNECTING`) when a connect
     task is already registered;
  4. create and await the task; on its `True` result set `CONNECTED`,
     clear the task and return `True`. -/
def connect (s : ServerConnection) :
    ServerConnection × List ConnEvent × Option PyErr × Option Bool :=
  let step1 := setConnectionStatus s .CONNECTING
  if step1.1.url = Option.none then
    let step2 := setConnectionStatus step1.1 .DISCONNECTED
    (step2.1, step1.2 ++ step2.2, some .connectionError, Option.none)
  else if step1.1.connectTask then
    (step1.1, step1.2, some .connectionError, Option.none)
  else
    let running := { step1.1 with connectTask := true }
    let step3 := setConnectionStatus running .CONNECTED
    ({ step3.1 with connectTask := false },
     step1.2 ++ step3.2, Option.none, some true)

/-- `ServerConnection.disconnect()` with both `await`s compressed to
normal completion.  Source order: return at once unless `connected`; set
`DISCONNECTING`; raise `ConnectionError` when a disconnect task is already
registered; run the coroutine (cancel and clear a registered connect task,
then sleep); set `DISCONNECTED` and clear the disconnect task. -/
def disconnect (s : ServerConnection) :
    ServerConnection × List ConnEvent × Option PyErr :=
  if !connected s then (s, [], Option.none)
  else
    let step1 := setConnectionStatus s .DISCONNECTING
    if step1.1.disconnectTask then (step1.1, step1.2, some .connectionError)
    else
      let afterCoro :=
        if step1.1.connectTask then
          ({ step1.1 with connectTask := false }, [ConnEvent.cancelConnectTask])
        else (step1.1, [])
      let step2 := setConnectionStatus afterCoro.1 .DISCONNECTED
      ({ step2.1 with disconnectTask := false },
       step1.2 ++ afterCoro.2 ++ step2.2, Option.none)

/-- `ServerConnection.cancel()` — synchronous, no suspension points.
Source order:
  1. `self.connection_status = CANCELLING`;
  2. `if self._connect_task is not None:` cancel it, clear it, set
     `DISCONNECTED`;
  3. `if self._disconnect_task is not None:` (an independent `if`, not an
     `elif`) cancel it, clear it, set `CONNECTED`. -/
def cancel (s : ServerConnection) : ServerConnection × List ConnEvent :=
  let step1 := setConnectionStatus s .CANCELLING
  let step2 :=
    if step1.1.connectTask then
      let cleared := { step1.1 with connectTask := false }
      let set2 := setConnectionStatus cleared .DISCONNECTED
      (set2.1, ConnEvent.cancelConnectTask :: set2.2)
    else (step1.1, [])
  let step3 :=
    if step2.1.disconnectTask then
      let cleared := { step2.1 with disconnectTask := false }
      let set3 := setConnectionStatus cleared .CONNECTED
      (set3.1, ConnEvent.cancelDisconnectTask :: set3.2)
    else (step2.1, [])
  (step3.1, step1.2 ++ step2.2 ++ step3.2)

/-! ## Concrete instances used by the theorems -/

/-- A `Variable` holding `0 : int` whose validator accepts only `0`. -/
def c1Var : Variable :=
  { observers := [5]
    formatter := Option.none
    validator := some (fun v => v == PyVal.int 0)
    value := PyVal.int 0
    ty := some PyType.intType }

/-- A `Variable` holding `3 : int` whose formatter always raises
`TypeError`. -/
def c7Var : Variable :=
  { observers := []
    formatter := some (fun _ => .error .typeError)
    validator := Option.none
    value := PyVal.int 3
    ty := some PyType.intType }

/-- A `Variable` holding `None` whose formatter always raises
`TypeError`. -/
def c7NoneVar : Variable :=
  { observers := []
    formatter := some (fun _ => .error .typeError)
    validator := Option.none
    value := PyVal.none
    ty := some PyType.noneType }

/-- The `Variable` produced by `Variable(None)` — no callbacks, no
validator, no formatter. -/
def c8Var : Variable :=
  { observers := []
    formatter := Option.none
    validator := Option.none
    value := PyVal.none
    ty := some PyType.noneType }

/-- A `ServerConnection` in the middle of a second `connect()` attempt:
status `CONNECTING`, connect task in flight, one observer. -/
def reconnectingConn : ServerConnection :=
  { url := some "https://localhost:5000"
    statusObservers := [7]
    connectionStatus := .CONNECTING
    connectTask := true
    disconnectTask := false }

/-- A `ServerConnection` with both a connect and a disconnect task
registered (the state `disconnect()`'s coroutine passes through while it
cancels a lingering connect task). -/
def bothInFlightConn : ServerConnection :=
  { url := some "https://localhost:5000"
    statusObservers := []
    connectionStatus := .DISCONNECTING
    connectTask := true
    disconnectTask := true }

/-! ## Theorems for the claims -/

/-- C9: the URL canonicalization of `src/model/helpers.py` with default
scheme `"https"` maps `"example.com"` to `"https://example.com"` and
`"http://host:8080/path?x=1"` to `"http://host:8080/path"` — the query is
stripped and only scheme, host and path are kept. -/
theorem validate_url_model_examples :
    validateUrlModel "https" (some "example.com") =
      Except.ok (some "https://example.com") ∧
    validateUrlModel "https" (some "http://host:8080/path?x=1") =
      Except.ok (some "http://host:8080/path") := by
  exact ⟨rfl, rfl⟩

/-- C2 is false on the code: `ServerConnection` imports the
connection-layer `validate_url`, which assumes no default scheme, so on a
fresh connection `setURL("localhost:5000")` parses scheme `"localhost"`
with an empty host and stores the absent value `None`, not
`"https://localhost:5000"`. -/
theorem set_url_localhost_counterexample :
    (setUrl (mkServerConnection Option.none Option.none)
        (some "localhost:5000")).url = Option.none ∧
    (setUrl (mkServerConnection Option.none Option.none)
        (some "localhost:5000")).url ≠ some "https://localhost:5000" := by
  exact ⟨rfl, by decide⟩

/-- C2 amended: on a fresh `ServerConnection`, `setURL("localhost:5000")`
completes without raising but stores the absent value `None` (the
connection-layer `validate_url` assumes no default scheme and yields
`None` when parsing finds no host); `setURL` stores `validate_url(value)`
and never changes the status. -/
theorem set_url_localhost_amended :
    (∀ (s : ServerConnection) (v : Option String),
      (setUrl s v).url = validateUrlConn v ∧
      (setUrl s v).connectionStatus = s.connectionStatus ∧
      (setUrl s v).statusObservers = s.statusObservers) ∧
    validateUrlConn (some "localhost:5000") = Option.none ∧
    (setUrl (mkServerConnection Option.none Option.none)
        (some "localhost:5000")).url = Option.none := by
  exact ⟨fun s v => ⟨rfl, rfl, rfl⟩, rfl, rfl⟩

/-- C6: `connect()` on a connection whose url is absent raises
`ConnectionError`, returns no value, and leaves the status
`DISCONNECTED`. -/
theorem connect_without_url (s : ServerConnection) (h : s.url = Option.none) :
    (connect s).2.2.1 = some PyErr.connectionError ∧
    (connect s).1.connectionStatus = ConnectionStatus.DISCONNECTED ∧
    (connect s).2.2.2 = Option.none := by
  simp only [connect, setConnectionStatus, h]
  exact ⟨rfl, rfl, rfl⟩

/-- C6 witness: a freshly constructed `ServerConnection()` has no url, and
`connect()` on it errors with status `DISCONNECTED`. -/
theorem connect_without_url_witness :
    (connect (mkServerConnection Option.none Option.none)).2.2.1 =
      some PyErr.connectionError ∧
    (connect (mkServerConnection Option.none Option.none)).1.connectionStatus =
      ConnectionStatus.DISCONNECTED ∧
    (connect (mkServerConnection Option.none Option.none)).2.2.2 =
      Option.none :=
  connect_without_url (mkServerConnection Option.none Option.none) rfl

/-- C10: every assignment through the `connection_status` setter stores
the new status and synchronously notifies every registered observer with
`(new, old)`; there is no change detection, so this also holds when the
new status equals the old one — concretely, a second `connect()` on a
connection already `CONNECTING` first re-assigns `CONNECTING`, notifying
its observer of a transition whose new and old status coincide. -/
theorem status_setter_notifies_all :
    (∀ (s : ServerConnection) (v : ConnectionStatus),
      (setConnectionStatus s v).1 = { s with connectionStatus := v } ∧
      (setConnectionStatus s v).2 =
        ConnEvent.statusSet v s.connectionStatus ::
          s.statusObservers.map
            (fun cb => ConnEvent.statusNotify cb v s.connectionStatus)) ∧
    (connect reconnectingConn).2.1 =
      [ConnEvent.statusSet .CONNECTING .CONNECTING,
       ConnEvent.statusNotify 7 .CONNECTING .CONNECTING] ∧
    (connect reconnectingConn).2.2.1 = some PyErr.connectionError := by
  refine ⟨fun s v => ⟨rfl, rfl⟩, by decide, by decide⟩

/-- C3 is false on the code as stated: the two branches of `cancel()` are
independent `if`s, not an `if`/`elif`.  In a state with both a connect and
a disconnect task registered the claim's "else if" predicts a final status
of `DISCONNECTED` (the connect branch runs, the disconnect branch is
skipped), but the code runs both branches and ends at `CONNECTED`. -/
theorem cancel_both_in_flight_counterexample :
    bothInFlightConn.connectTask = true ∧
    bothInFlightConn.disconnectTask = true ∧
    (cancel bothInFlightConn).1.connectionStatus = ConnectionStatus.CONNECTED ∧
    (cancel bothInFlightConn).1.connectionStatus ≠ ConnectionStatus.DISCONNECTED := by
  exact ⟨rfl, rfl, rfl, by decide⟩

/-- C3 amended: `cancel()` first sets status to `CANCELLING` (observable:
the first events are that assignment and its notifications); then, if a
connect task is registered, it cancels it, clears the handle and sets
`DISCONNECTED`; then — independently, an `if` rather than an `else if` —
if a disconnect task is registered, it cancels it, clears the handle and
sets `CONNECTED` (so with both in flight the final status is `CONNECTED`);
with neither in flight the status remains `CANCELLING`.  Both task
handles are always clear afterwards and the full event trace is as
listed. -/
theorem cancel_characterization (s : ServerConnection) :
    (cancel s).1.connectionStatus =
      (if s.disconnectTask then ConnectionStatus.CONNECTED
       else if s.connectTask then ConnectionStatus.DISCONNECTED
       else ConnectionStatus.CANCELLING) ∧
    (cancel s).1.connectTask = false ∧
    (cancel s).1.disconnectTask = false ∧
    (cancel s).1.url = s.url ∧
    (cancel s).2 =
      (ConnEvent.statusSet .CANCELLING s.connectionStatus ::
        s.statusObservers.map
          (fun cb => ConnEvent.statusNotify cb .CANCELLING s.connectionStatus)) ++
      (if s.connectTask then
        ConnEvent.cancelConnectTask ::
          ConnEvent.statusSet .DISCONNECTED .CANCELLING ::
          s.statusObservers.map
            (fun cb => ConnEvent.statusNotify cb .DISCONNECTED .CANCELLING)
       else []) ++
      (if s.disconnectTask then
        ConnEvent.cancelDisconnectTask ::
          ConnEvent.statusSet .CONNECTED
            (if s.connectTask then .DISCONNECTED else .CANCELLING) ::
          s.statusObservers.map
            (fun cb => ConnEvent.statusNotify cb .CONNECTED
              (if s.connectTask then .DISCONNECTED else .CANCELLING))
       else []) := by
  rcases s with ⟨url, obs, st, ct, dt⟩
  cases ct <;> cases dt <;>
    simp [cancel, setConnectionStatus]

/-- C1 is false on the code as stated: the type assertion of `_set_value`
runs before the validator is consulted, so a candidate the validator
rejects but whose type also mismatches raises `AssertionError`, not
`ValidationError` — here `c1Var` (fixed type `int`, validator accepting
only `0`) rejects the string `"x"` with `AssertionError`. -/
theorem set_value_rejected_counterexample :
    (match c1Var.validator with
      | some f => f (PyVal.str "x")
      | Option.none => true) = false ∧
    (varSetValue c1Var (PyVal.str "x")).2.2 = some PyErr.assertionError ∧
    (varSetValue c1Var (PyVal.str "x")).2.2 ≠ some PyErr.validationError := by
  exact ⟨rfl, rfl, by decide⟩

/-- C1 amended: for a `Variable` with a fixed type and a validator that
rejects `v`, `set(v)` leaves the stored value (indeed the whole object)
unchanged and invokes no observer; it raises `ValidationError` when `v`
passes the type check (`v` is the absent sentinel or has the fixed type)
and `AssertionError` (the type-mismatch error, checked first) otherwise. -/
theorem set_value_rejected (var : Variable) (t : PyType) (f : PyVal → Bool)
    (v : PyVal) (hty : var.ty = some t) (hf : var.validator = some f)
    (hrej : f v = false) :
    (varSetValue var v).1 = var ∧
    (varSetValue var v).2.1 = [] ∧
    ((v = PyVal.none ∨ typeOf v = t) →
      (varSetValue var v).2.2 = some PyErr.validationError) ∧
    (v ≠ PyVal.none → typeOf v ≠ t →
      (varSetValue var v).2.2 = some PyErr.assertionError) := by
  simp only [varSetValue, hty]
  by_cases hmis : v ≠ PyVal.none ∧ typeOf v ≠ t
  · rw [if_pos hmis]
    refine ⟨rfl, rfl, ?_, fun _ _ => rfl⟩
    rintro (hn | hT)
    · exact absurd hn hmis.1
    · exact absurd hT hmis.2
  · rw [if_neg hmis, hf, if_pos (by simp [hrej])]
    refine ⟨rfl, rfl, fun _ => rfl, ?_⟩
    intro hn hT
    exact absurd ⟨hn, hT⟩ hmis

/-- C1 witness: `c1Var`'s validator rejects the well-typed candidate `5`,
and `set(5)` raises `ValidationError` leaving the object unchanged with no
observer invoked. -/
theorem set_value_rejected_witness :
    (varSetValue c1Var (PyVal.int 5)).1 = c1Var ∧
    (varSetValue c1Var (PyVal.int 5)).2.1 = [] ∧
    (varSetValue c1Var (PyVal.int 5)).2.2 = some PyErr.validationError := by
  refine ⟨(set_value_rejected c1Var PyType.intType
      (fun v => v == PyVal.int 0) (PyVal.int 5) rfl rfl (by decide)).1,
    (set_value_rejected c1Var PyType.intType
      (fun v => v == PyVal.int 0) (PyVal.int 5) rfl rfl (by decide)).2.1,
    (set_value_rejected c1Var PyType.intType
      (fun v => v == PyVal.int 0) (PyVal.int 5) rfl rfl (by decide)).2.2.1
        (Or.inr rfl)⟩

/-- C7 is false on the code as stated: `__repr__` catches only `TypeError`
and re-raises it whenever the stored value is not `None`, so a formatter
failure on `c7Var` (stored value `3`) propagates to the caller instead of
producing a fixed "unformattable" placeholder string. -/
theorem repr_formatter_failure_counterexample :
    varRepr c7Var = Except.error PyErr.typeError := by
  exact rfl

/-- C7 amended: with a formatter present, the textual representation
returns `formatter(self, value)` when it succeeds; when the formatter
raises `TypeError` it returns the fixed string `"None"` if the stored
value is the absent sentinel and otherwise re-raises; any formatter
failure other than `TypeError` propagates unconditionally. -/
theorem repr_formatter (var : Variable) (f : PyVal → Except PyErr String)
    (hf : var.formatter = some f) :
    (∀ s, f var.value = .ok s → varRepr var = .ok s) ∧
    (f var.value = .error PyErr.typeError →
      varRepr var =
        (if var.value = PyVal.none then .ok "None"
         else .error PyErr.typeError)) ∧
    (∀ e, f var.value = .error e → e ≠ PyErr.typeError →
      varRepr var = .error e) := by
  refine ⟨fun s hs => ?_, fun he => ?_, fun e he hne => ?_⟩
  · simp only [varRepr, hf, hs]
  · simp only [varRepr, hf, he]
  · simp only [varRepr, hf, he]

/-- C7 witness: on `c7Var` the always-`TypeError` formatter's failure
re-raises (stored value `3`), and on `c7NoneVar` (stored value `None`) the
same failure is converted to the string `"None"`. -/
theorem repr_formatter_witness :
    varRepr c7Var = Except.error PyErr.typeError ∧
    varRepr c7NoneVar = Except.ok "None" := by
  refine ⟨?_, ?_⟩
  · simpa using (repr_formatter c7Var (fun _ => .error .typeError) rfl).2.1 rfl
  · simpa using (repr_formatter c7NoneVar (fun _ => .error .typeError) rfl).2.1 rfl

/-- C8: the code at the failing input of the claim.  `Variable(None)`
fixes `self._type = type(None) = NoneType` (the spec says no type should
be fixed for the absent sentinel; the guard `self._type is None` of the
deferred-type branch never holds, leaving that branch dead), so the
subsequent `set(5)` trips the type assertion (`AssertionError`) and the
stored value stays `None` — where the claim requires it to succeed. -/
theorem variable_none_fixes_nonetype :
    mkVariable PyVal.none Option.none Option.none Option.none = .ok c8Var ∧
    c8Var.ty = some PyType.noneType ∧
    (varSetValue c8Var (PyVal.int 5)).2.2 = some PyErr.assertionError ∧
    (varSetValue c8Var (PyVal.int 5)).1.value = PyVal.none := by
  exact ⟨rfl, rfl, rfl, rfl⟩

/-- Exhaustive outcome of `Variable._set_value`: either the mutation
succeeds (no error, value stored, all observers notified of
`(new, old)`), or it fails and the object is unchanged with no observer
invoked. -/
theorem varSetValue_cases (var : Variable) (v : PyVal) :
    ((varSetValue var v).2.2 = Option.none ∧
     (varSetValue var v).1 = { var with value := v } ∧
     (varSetValue var v).2.1 =
       var.observers.map (fun cb => (cb, v, var.value))) ∨
    ((varSetValue var v).2.2 ≠ Option.none ∧
     (varSetValue var v).1 = var ∧ (varSetValue var v).2.1 = []) := by
  rcases var with ⟨obs, fmt, vald, val, ty⟩
  cases ty with
  | none => right; simp [varSetValue]
  | some t =>
    by_cases h1 : v ≠ PyVal.none ∧ typeOf v ≠ t
    · right; simp [varSetValue, h1]
    · by_cases h2 :
        (match vald with | some f => !(f v) | Option.none => false) = true
      · right; simp [varSetValue, h1, h2]
      · left; simp [varSetValue, h1, h2]

/-- After `AutomaticStateVariable._set_state(n)` the stored state is `n`. -/
theorem asvSetState_state (a : AutomaticStateVariable) (n : State) :
    (asvSetState a n).1.state = n := rfl

/-- C5: each `set(value)` on an `AutomaticStateVariable` either succeeds —
and then the state immediately afterwards is `GREEN`, whatever it was
before — or the base mutation fails, and then the whole object (value,
state and both decay-timer handles) is unchanged and no observer was
invoked. -/
theorem asv_set_value_green_or_unchanged (a : AutomaticStateVariable) (v : PyVal) :
    ((asvSetValue a v).2.2 = Option.none ∧
     (asvSetValue a v).1.state = State.GREEN) ∨
    ((asvSetValue a v).2.2 ≠ Option.none ∧
     (asvSetValue a v).1 = a ∧ (asvSetValue a v).2.1 = []) := by
  cases h : (varSetValue a.toVariable v).2.2 with
  | none =>
    left
    constructor
    · simp [asvSetValue, h]
    · simp [asvSetValue, h, asvSetState_state]
  | some e =>
    rcases varSetValue_cases a.toVariable v with ⟨hnone, _, _⟩ | ⟨_, hunch, hnotifs⟩
    · rw [h] at hnone; exact absurd hnone (by simp)
    · right
      refine ⟨by simp [asvSetValue, h], ?_, ?_⟩
      · simp [asvSetValue, h, hunch]
      · simp [asvSetValue, h, hnotifs]

/-- The timer-arming events of `AutomaticStateVariable._set_state(n)`:
`GREEN` arms the green-to-yellow timer when that duration is configured
and truthy (non-`None`, non-zero), `YELLOW` arms the yellow-to-red timer
likewise, every other state arms nothing. -/
def armEventsFor (a : AutomaticStateVariable) (n : State) : List AsvEvent :=
  (if n = State.GREEN ∧ truthyDuration a.greenToYellow then
    match a.greenToYellow with
    | some g => [AsvEvent.armGreenToYellow g]
    | Option.none => []
   else []) ++
  (if n = State.YELLOW ∧ truthyDuration a.yellowToRed then
    match a.yellowToRed with
    | some y => [AsvEvent.armYellowToRed y]
    | Option.none => []
   else [])

/-- At most one timer is armed per `setState`. -/
theorem armEventsFor_length (a : AutomaticStateVariable) (n : State) :
    (armEventsFor a n).length ≤ 1 := by
  cases n <;>
    simp only [armEventsFor] <;>
    cases hg : a.greenToYellow <;>
    cases hy : a.yellowToRed <;>
    split_ifs <;>
    simp_all

/-- The phase the claim assigns to each `setState` event — cancellations
first (0), then the base notification (1), then timer arming (2). -/
def asvClaimPhase : AsvEvent → Nat
  | .cancelGreenToYellow => 0
  | .cancelYellowToRed => 0
  | .valueNotify _ _ _ => 1
  | .stateNotify _ _ _ => 1
  | .armGreenToYellow _ => 2
  | .armYellowToRed _ => 2

/-- Whether a list of phase numbers never decreases (each adjacent pair is
ordered). -/
def ranksNondecreasing : List Nat → Bool
  | [] => true
  | [_] => true
  | a :: b :: t => Nat.ble a b && ranksNondecreasing (b :: t)

/-- An `AutomaticStateVariable` in state `GREEN`, with a state-change
callback, a configured green-to-yellow duration of 10 seconds and a live
pending green-to-yellow timer. -/
def c4Var : AutomaticStateVariable :=
  { observers := []
    formatter := Option.none
    validator := Option.none
    value := PyVal.int 0
    ty := some PyType.intType
    state := State.GREEN
    onStateChange := some 0
    greenToYellow := some 10
    yellowToRed := Option.none
    greenToYellowHandle := some { cancelled := false }
    yellowToRedHandle := Option.none }

/-- C4 is false on the code as stated: the overridden `_set_state` calls
`super()._set_state` — the base transition and its notification — before
it cancels the pending timers, so on `c4Var` the recorded trace of
`setState(BLUE)` is the notification followed by the cancellation, and
the phase sequence the claim requires (cancel, then notify, then arm) is
violated. -/
theorem asv_set_state_order_counterexample :
    (asvSetState c4Var State.BLUE).2 =
      [AsvEvent.stateNotify 0 State.BLUE State.GREEN,
       AsvEvent.cancelGreenToYellow] ∧
    ranksNondecreasing
      (((asvSetState c4Var State.BLUE).2).map asvClaimPhase) = false := by
  exact ⟨by decide, by decide⟩

/-- C4 amended: `setState(newState)` performs the base state transition
and notification first, then cancels any pending green-to-yellow and
yellow-to-red timers (a no-op when a handle is absent or already
cancelled), and only then arms at most one new timer chosen by the new
state (`GREEN` arms the yellow timer when `greenToYellowSeconds` is
configured and non-zero, `YELLOW` the red timer likewise, all other
states arm nothing). -/
theorem asv_set_state_characterization (a : AutomaticStateVariable) (n : State) :
    (asvSetState a n).1.state = n ∧
    (asvSetState a n).2 =
      (match a.onStateChange with
        | some cb => [AsvEvent.stateNotify cb n a.state]
        | Option.none => []) ++
      ((if handleActive a.greenToYellowHandle then
          [AsvEvent.cancelGreenToYellow] else []) ++
       (if handleActive a.yellowToRedHandle then
          [AsvEvent.cancelYellowToRed] else [])) ++
      armEventsFor a n ∧
    (armEventsFor a n).length ≤ 1 := by
  refine ⟨asvSetState_state a n, ?_, armEventsFor_length a n⟩
  rcases a with ⟨⟨⟨obs, fmt, vald, val, ty⟩, st, osc⟩, g2y, y2r, gh, yh⟩
  cases osc <;>
    simp [asvSetState, svSetState, armEventsFor, List.append_assoc] <;>
    cases g2y <;> cases y2r <;> split_ifs <;> simp_all

end Mtms
